import Mathlib

/-!
Shallow embedding of the conversational-ordering core of the ardine backend
(`api/retrieval.py`, `api/llm.py`, `api/models.py`, `api/views.py`), together
with theorems settling the frozen claims about it.

Conventions of the embedding:
* Python runtime values that flow through JSON fields, Chroma metadata and
  model output are modelled by the inductive `JVal` (ints and floats kept
  separate, floats as exact rationals).
* Code that can raise models the raise as `Except PyErr`; the view's
  `try/except` boundary converts an error into an HTTP error response.
* External collaborators (Chroma index, Groq completion call, Django ORM
  row stores) are oracles carried in an `Env` record plus an explicit `DB`
  state; every definition is executable.
-/

namespace Ardine

/-- Python exception values that the embedded code can raise. -/
inductive PyErr where
  | keyError (k : String)
  | typeError (msg : String)
  | attributeError (msg : String)
  | valueError (msg : String)
deriving Repr, DecidableEq

/-- A Python/JSON runtime value.  Chroma metadata values, parsed model
output, cart entries and history entries are all built from these. -/
inductive JVal where
  | null
  | bool (b : Bool)
  | int (n : Int)
  | float (q : Rat)
  | str (s : String)
  | list (xs : List JVal)
  | obj (kvs : List (String × JVal))
deriving Repr, BEq

/-- A Python dict with string keys, as an association list (first binding
wins, as in the dict literals the sources build). -/
abbrev PyDict := List (String × JVal)

/-- `d.get(k)` as an `Option`: first binding for `k`. -/
def lookupKey (m : PyDict) (k : String) : Option JVal :=
  (m.find? (fun kv => kv.1 == k)).map (fun kv => kv.2)

/-- `d[k]`: raises `KeyError` when the key is absent. -/
def getItem (m : PyDict) (k : String) : Except PyErr JVal :=
  match lookupKey m k with
  | some v => .ok v
  | none => .error (.keyError k)

/-- ASCII lowering, modelling `str.lower()` on the menu/dish names in play. -/
def pyLower (s : String) : String := ⟨s.data.map Char.toLower⟩

def isPyWs (c : Char) : Bool := c = ' ' ∨ c = '\t' ∨ c = '\n' ∨ c = '\r'

/-- `str.strip()` with no argument (whitespace at both ends). -/
def pyStrip (s : String) : String :=
  ⟨((s.data.dropWhile isPyWs).reverse.dropWhile isPyWs).reverse⟩

/-- `str.capitalize()`: first character upper-cased, the rest lower-cased. -/
def pyCapitalize (s : String) : String :=
  match s.data with
  | [] => ""
  | c :: cs => ⟨c.toUpper :: cs.map Char.toLower⟩

/-- `sep.join(xs)`. -/
def pyJoin (sep : String) : List String → String
  | [] => ""
  | [x] => x
  | x :: xs => x ++ sep ++ pyJoin sep xs

/-- `xs[-n:]`. -/
def pyLastN {α : Type} (n : Nat) (xs : List α) : List α :=
  xs.drop (xs.length - n)

/-- Least `k` (trying `k, k+1, …` while fuel lasts) with `den ∣ 10^k`. -/
def findDecK (den : Nat) : Nat → Nat → Option Nat
  | k, 0 => if (10:Nat) ^ k % den = 0 then some k else none
  | k, fuel+1 => if (10:Nat) ^ k % den = 0 then some k else findDecK den (k+1) fuel

/-- Left-pad the decimal digits of `m` with zeros to width `k`. -/
def padZeros (k : Nat) (m : Nat) : String :=
  let s := toString m
  (⟨List.replicate (k - s.length) '0'⟩ : String) ++ s

/-- Rendering of a Python float value (exact rational with 10-smooth
denominator) in the shortest fixed-point form, e.g. `150.0`, `1.5`. -/
def floatStr (q : Rat) : String :=
  match findDecK q.den 0 64 with
  | some k =>
    let scale := (10:Nat) ^ k / q.den
    let mag := q.num.natAbs * scale
    let sign := if q.num < 0 then "-" else ""
    if k = 0 then sign ++ toString mag ++ ".0"
    else sign ++ toString (mag / 10 ^ k) ++ "." ++ padZeros k (mag % 10 ^ k)
  | none => toString q.num ++ "/" ++ toString q.den

mutual

/-- Python `repr()` of a `JVal` (strings quoted; containers recursively). -/
def pyRepr : JVal → String
  | .null => "None"
  | .bool b => if b then "True" else "False"
  | .int n => toString n
  | .float q => floatStr q
  | .str s => "\x27" ++ s ++ "\x27"
  | .list xs => "[" ++ pyJoin ", " (pyReprList xs) ++ "]"
  | .obj kvs => "\x7b" ++ pyJoin ", " (pyReprObj kvs) ++ "\x7d"

/-- `repr` of list elements. -/
def pyReprList : List JVal → List String
  | [] => []
  | x :: xs => pyRepr x :: pyReprList xs

/-- `repr` of dict members. -/
def pyReprObj : List (String × JVal) → List String
  | [] => []
  | kv :: kvs => ("\x27" ++ kv.1 ++ "\x27: " ++ pyRepr kv.2) :: pyReprObj kvs

end

/-- Python `str()` of a `JVal` (identity on strings, `repr` elsewhere),
used when a value meets an f-string. -/
def pyStr : JVal → String
  | .str s => s
  | v => pyRepr v

/-- Python truthiness. -/
def pyFalsy : JVal → Bool
  | .null => true
  | .bool b => !b
  | .int n => n = 0
  | .float q => q = 0
  | .str s => s = ""
  | .list xs => xs.isEmpty
  | .obj kvs => kvs.isEmpty

/-- `str(e)` for the exceptions we raise (`KeyError` renders quoted). -/
def pyErrStr : PyErr → String
  | .keyError k => "\x27" ++ k ++ "\x27"
  | .typeError m => m
  | .attributeError m => m
  | .valueError m => m

/-! ### A model of `json.loads`

`api/llm.py` decodes the model's raw text with `json.loads`.  The parser
below accepts standard JSON (objects, arrays, strings with the usual
escapes, numbers, literals) and rejects everything else; integer literals
decode to `JVal.int` and fractional/exponent literals to `JVal.float`,
mirroring Python's `int`/`float` distinction. -/

def jsonWs (c : Char) : Bool := c = ' ' ∨ c = '\t' ∨ c = '\n' ∨ c = '\r'

def skipWs : List Char → List Char
  | [] => []
  | c :: cs => if jsonWs c then skipWs cs else c :: cs

def hexVal (c : Char) : Option Nat :=
  if '0' ≤ c ∧ c ≤ '9' then some (c.toNat - '0'.toNat)
  else if 'a' ≤ c ∧ c ≤ 'f' then some (c.toNat - 'a'.toNat + 10)
  else if 'A' ≤ c ∧ c ≤ 'F' then some (c.toNat - 'A'.toNat + 10)
  else none

/-- String body parser (after the opening quote), with fuel. -/
def parseJStr : Nat → List Char → List Char → Except String (String × List Char)
  | 0, _, _ => .error "string: out of fuel"
  | _+1, _, [] => .error "Unterminated string"
  | _+1, acc, '"' :: rest => .ok (⟨acc.reverse⟩, rest)
  | fuel+1, acc, '\\' :: rest =>
    match rest with
    | [] => .error "Unterminated string"
    | 'n' :: r => parseJStr fuel ('\n' :: acc) r
    | 't' :: r => parseJStr fuel ('\t' :: acc) r
    | 'r' :: r => parseJStr fuel ('\r' :: acc) r
    | 'b' :: r => parseJStr fuel ('\x08' :: acc) r
    | 'f' :: r => parseJStr fuel ('\x0c' :: acc) r
    | '"' :: r => parseJStr fuel ('"' :: acc) r
    | '\\' :: r => parseJStr fuel ('\\' :: acc) r
    | '/' :: r => parseJStr fuel ('/' :: acc) r
    | 'u' :: a :: b :: c :: d :: r =>
      match hexVal a, hexVal b, hexVal c, hexVal d with
      | some ha, some hb, some hc, some hd =>
        let n := ((ha * 16 + hb) * 16 + hc) * 16 + hd
        parseJStr fuel ((Char.ofNat n) :: acc) r
      | _, _, _, _ => .error "Invalid \\uXXXX escape"
    | _ => .error "Invalid \\escape"
  | fuel+1, acc, c :: rest => parseJStr fuel (c :: acc) rest

def isDigit (c : Char) : Bool := '0' ≤ c ∧ c ≤ '9'

def digitsToNat (ds : List Char) : Nat :=
  ds.foldl (fun a c => a * 10 + (c.toNat - '0'.toNat)) 0

/-- Leading minus sign of a JSON number literal. -/
def splitNeg : List Char → Bool × List Char
  | '-' :: tl => (true, tl)
  | other => (false, other)

/-- Number parser (at a `-` or digit). -/
def parseJNum (cs : List Char) : Except String (JVal × List Char) :=
  let sgn := splitNeg cs
  let neg := sgn.1
  let cs1 := sgn.2
  let (intDs, cs2) := cs1.span isDigit
  if intDs.isEmpty then .error "Expecting value" else
  let (fracDs, cs3) := match cs2 with
    | '.' :: r => r.span isDigit
    | _ => ([], cs2)
  match cs2, fracDs with
  | '.' :: _, [] => .error "Expecting digit after point"
  | _, _ =>
  let (hasExp, expNeg, expDs, cs4) := match cs3 with
    | 'e' :: '+' :: r => let (ds, r2) := r.span isDigit; (true, false, ds, r2)
    | 'e' :: '-' :: r => let (ds, r2) := r.span isDigit; (true, true, ds, r2)
    | 'e' :: r => let (ds, r2) := r.span isDigit; (true, false, ds, r2)
    | 'E' :: '+' :: r => let (ds, r2) := r.span isDigit; (true, false, ds, r2)
    | 'E' :: '-' :: r => let (ds, r2) := r.span isDigit; (true, true, ds, r2)
    | 'E' :: r => let (ds, r2) := r.span isDigit; (true, false, ds, r2)
    | _ => (false, false, [], cs3)
  if hasExp ∧ expDs.isEmpty then .error "Expecting digit in exponent" else
  let n := digitsToNat intDs
  if ¬ hasExp ∧ fracDs.isEmpty then
    .ok (.int (if neg then -(n : Int) else (n : Int)), cs3)
  else
    let fd := fracDs.length
    let mant : Int := (n * 10 ^ fd + digitsToNat fracDs : Nat)
    let mant := if neg then -mant else mant
    let e := digitsToNat expDs
    let base : Rat := (mant : Rat) / ((10 : Rat) ^ fd)
    let v : Rat := if expNeg then base / ((10 : Rat) ^ e) else base * ((10 : Rat) ^ e)
    .ok (.float v, cs4)

mutual

/-- JSON value parser with fuel. -/
def parseJVal : Nat → List Char → Except String (JVal × List Char)
  | 0, _ => .error "out of fuel"
  | fuel+1, cs =>
    match skipWs cs with
    | [] => .error "Expecting value"
    | c :: rest =>
      if c = '\x7b' then
        match skipWs rest with
        | '\x7d' :: r2 => .ok (.obj [], r2)
        | r1 => do
          let (kvs, r2) ← parseJObj fuel r1
          .ok (.obj kvs, r2)
      else if c = '[' then
        match skipWs rest with
        | ']' :: r2 => .ok (.list [], r2)
        | r1 => do
          let (xs, r2) ← parseJArr fuel r1
          .ok (.list xs, r2)
      else if c = '"' then do
        let (s, r) ← parseJStr (rest.length + 1) [] rest
        .ok (.str s, r)
      else if c = 't' then
        match rest with
        | 'r' :: 'u' :: 'e' :: r => .ok (.bool true, r)
        | _ => .error "Expecting value"
      else if c = 'f' then
        match rest with
        | 'a' :: 'l' :: 's' :: 'e' :: r => .ok (.bool false, r)
        | _ => .error "Expecting value"
      else if c = 'n' then
        match rest with
        | 'u' :: 'l' :: 'l' :: r => .ok (.null, r)
        | _ => .error "Expecting value"
      else if c = '-' ∨ isDigit c then parseJNum (c :: rest)
      else .error "Expecting value"

/-- Members of a JSON object (at the first key). -/
def parseJObj : Nat → List Char → Except String (List (String × JVal) × List Char)
  | 0, _ => .error "out of fuel"
  | fuel+1, cs =>
    match skipWs cs with
    | '"' :: rest => do
      let (k, r1) ← parseJStr (rest.length + 1) [] rest
      match skipWs r1 with
      | ':' :: r2 => do
        let (v, r3) ← parseJVal fuel r2
        match skipWs r3 with
        | ',' :: r4 => do
          let (kvs, r5) ← parseJObj fuel r4
          .ok ((k, v) :: kvs, r5)
        | '\x7d' :: r4 => .ok ([(k, v)], r4)
        | _ => .error "Expecting comma or end of object"
      | _ => .error "Expecting colon"
    | _ => .error "Expecting property name"

/-- Elements of a JSON array (at the first element). -/
def parseJArr : Nat → List Char → Except String (List JVal × List Char)
  | 0, _ => .error "out of fuel"
  | fuel+1, cs => do
    let (v, r1) ← parseJVal fuel cs
    match skipWs r1 with
    | ',' :: r2 => do
      let (xs, r3) ← parseJArr fuel r2
      .ok (v :: xs, r3)
    | ']' :: r2 => .ok ([v], r2)
    | _ => .error "Expecting comma or end of array"

end

/-- `json.loads` on a string: one JSON value, nothing but whitespace after. -/
def jsonLoads (s : String) : Except String JVal :=
  match parseJVal (4 * (s.length + 1)) s.data with
  | .error e => .error e
  | .ok (v, rest) => if (skipWs rest).isEmpty then .ok v else .error "Extra data"

/-! ## `api/retrieval.py` -/

/-- A document returned by retrieval: the indexed text plus the projected
metadata dict (`retrieval.py`, `retrieve_menu_items`). -/
structure DocEntry where
  text : String
  meta : PyDict
deriving Repr

/-- The metadata projection of `retrieve_menu_items` (retrieval.py 57-70):
every key is populated, a missing key falling back to the stated default
(`meta.get(key, default)`).  Ints and floats are both `JVal` numbers; the
defaults are `""` for the string-valued keys, `0.0` for `price` and `0`
for `calories`, exactly as in the source. -/
def metaProject (raw : PyDict) : PyDict :=
  [("dish_id", (lookupKey raw "dish_id").getD (.str "")),
   ("dish_name", (lookupKey raw "dish_name").getD (.str "")),
   ("restaurant_name", (lookupKey raw "restaurant_name").getD (.str "")),
   ("price", (lookupKey raw "price").getD (.float 0)),
   ("calories", (lookupKey raw "calories").getD (.int 0)),
   ("category", (lookupKey raw "category").getD (.str "")),
   ("tags", (lookupKey raw "tags").getD (.str "")),
   ("ingredients", (lookupKey raw "ingredients").getD (.str "")),
   ("chef_special", (lookupKey raw "chef_special").getD (.str "")),
   ("image_url", (lookupKey raw "image_url").getD (.str "")),
   ("video_url", (lookupKey raw "video_url").getD (.str "")),
   ("model_3d_url", (lookupKey raw "model_3d_url").getD (.str ""))]

/-- The keys `metaProject` populates. -/
def menuMetaKeys : List String :=
  ["dish_id", "dish_name", "restaurant_name", "price", "calories", "category",
   "tags", "ingredients", "chef_special", "image_url", "video_url", "model_3d_url"]

/-- The per-key defaults of `metaProject`. -/
def menuMetaDefault (k : String) : JVal :=
  if k = "price" then .float 0 else if k = "calories" then .int 0 else .str ""

/-- The Chroma index as an oracle: for `(restaurant_id, user_query, k)` it
yields `results["documents"][0]` zipped source, i.e. the first (only) row of
documents and metadatas, or `none` for the falsy `results`/`documents` case
(`if not results or not results.get("documents")`).  Embedding the query
text and the `where={"restaurant_id": ...}` filter happen inside the oracle;
a metadata entry may be `none` (`meta = meta or {}` handles it). -/
abbrev ChromaQuery := String → String → Nat → Option (List String × List (Option PyDict))

/-- `retrieve_menu_items(restaurant_id, user_query, k=5)` (retrieval.py
23-73).  A blank (whitespace-only) query short-circuits to `[]` before the
embedding model or the index is consulted; otherwise documents and
metadatas are zipped and each metadata dict is defensively projected. -/
def retrieve_menu_items (chroma : ChromaQuery) (restaurant_id : String)
    (user_query : String) (k : Nat := 5) : List DocEntry :=
  if pyStrip user_query = "" then []
  else
    match chroma restaurant_id user_query k with
    | none => []
    | some (docs, metas) =>
      (docs.zip metas).map (fun dm => ⟨dm.1, metaProject (dm.2.getD [])⟩)

/-- Keys read by `build_menu_context` (retrieval.py 93-101), in source order. -/
def contextFieldKeys : List String :=
  ["dish_name", "category", "price", "calories", "tags", "ingredients", "chef_special"]

/-- One line of `build_menu_context` (the f-string at retrieval.py 93-101);
`m[key]` raises `KeyError` on a missing key. -/
def contextLine (d : DocEntry) : Except PyErr String := do
  let nm ← getItem d.meta "dish_name"
  let cat ← getItem d.meta "category"
  let pr ← getItem d.meta "price"
  let cal ← getItem d.meta "calories"
  let tg ← getItem d.meta "tags"
  let ing ← getItem d.meta "ingredients"
  let cs ← getItem d.meta "chef_special"
  .ok ("Name: " ++ pyStr nm ++ " | Category: " ++ pyStr cat ++
       " | Price: ₹" ++ pyStr pr ++ " | Calories: " ++ pyStr cal ++
       " kcal | Tags: " ++ pyStr tg ++ " | Ingredients: " ++ pyStr ing ++
       " | Chef Special: " ++ pyStr cs)

/-- The `context_lines` accumulation loop of `build_menu_context`. -/
def contextLines : List DocEntry → Except PyErr (List String)
  | [] => .ok []
  | d :: rest => do
    let l ← contextLine d
    let ls ← contextLines rest
    .ok (l :: ls)

/-- The fixed sentence `build_menu_context` returns for no documents. -/
def noMatchMsg : String := "No matching dishes found for this restaurant."

/-- `build_menu_context(docs)` (retrieval.py 76-103). -/
def build_menu_context (docs : List DocEntry) : Except PyErr String :=
  if docs.isEmpty then .ok noMatchMsg
  else do
    let ls ← contextLines docs
    .ok (pyJoin "\n" ls)

/-! ## `api/llm.py` -/

/-- A history entry as the view stores it (views.py 322-328): the user
entry has only `role`/`content`; the assistant entry additionally carries
`intent` and `context_items` (we keep those two optional to model the
absent keys). -/
structure HistEntry where
  role : String
  content : JVal
  intent : Option JVal
  context_items : Option (List PyDict)
deriving Repr

/-- A cart entry (`ChatSession.cart` element, views.py 277-282): a JSON
object `{dish_id, name, price, qty}`; values are whatever the code stored. -/
structure CartEntry where
  dish_id : JVal
  nameV : JVal
  price : JVal
  qty : JVal
deriving Repr

/-- `chat_log` accumulation of `build_prompt` (llm.py 28-31): the last 5
turns rendered as `Role: content` lines. -/
def chatLogOf (chat_history : List HistEntry) : String :=
  (pyLastN 5 chat_history).foldl
    (fun acc turn => acc ++ pyCapitalize turn.role ++ ": " ++ pyStr turn.content ++ "\n") ""

/-- `cart_summary` of `build_prompt` (llm.py 33-36): empty for an empty
(falsy) cart, else a comma-joined `name (xqty)` listing. -/
def cartSummaryOf (cart : List CartEntry) : String :=
  if cart.isEmpty then ""
  else "Current Cart: " ++
    pyJoin ", " (cart.map (fun c => pyStr c.nameV ++ " (x" ++ pyStr c.qty ++ ")")) ++ "\n"

/-- `build_prompt` (llm.py 16-98): the instruction template with the five
dynamic slots (restaurant name, chat log, cart summary, menu context,
utterance), finally stripped.  The template text is reproduced with
normalized whitespace; the closed intent list and the rules are verbatim. -/
def build_prompt (restaurant_name menu_context user_query : String)
    (chat_history : List HistEntry) (cart : List CartEntry) : String :=
  let chat_log := chatLogOf chat_history
  let cart_summary := cartSummaryOf cart
  pyStrip
    ("\n        You are a friendly virtual waiter for \"" ++ restaurant_name ++ "\".\n" ++
     "        You help customers by answering questions, giving recommendations, and managing their orders.\n\n" ++
     "        Below is the recent chat, cart, and menu information. Use these carefully.\n\n" ++
     "        Conversation so far:\n        " ++ chat_log ++ "\n\n" ++
     "        Items currently in cart:\n        " ++ cart_summary ++ "\n\n" ++
     "        Menu Context (from the restaurant database):\n        " ++ menu_context ++ "\n\n" ++
     "        Customer says: \"" ++ user_query ++ "\"\n\n" ++
     "        ---\n        Your task:\n" ++
     "        Respond **strictly in JSON** following this structure:\n" ++
     "        \x7b\n" ++
     "        \"intent\": \"<one of: chat | describe_dish | add_to_cart | remove_from_cart | update_quantity | check_cart | confirm_order | recommend_dish | ask_calories | ask_ingredients | ask_price | ask_category | restaurant_info | greet | goodbye | unknown>\",\n" ++
     "        \"reply\": \"<your natural and friendly waiter-style response>\",\n" ++
     "        \"items\": [\"list of dishes or menu items mentioned by the user, if any\"]\n" ++
     "        \x7d\n\n        ---\n\n" ++
     "        Intent Definitions (read carefully):\n" ++
     "        - \"chat\": Small talk, greetings, or general non-order messages.\n" ++
     "        - \"describe_dish\": User asks about details, taste, or description of a specific dish.\n" ++
     "        - \"add_to_cart\": User wants to add one or more dishes to their order/cart.\n" ++
     "        - \"remove_from_cart\": User wants to remove something from the cart.\n" ++
     "        - \"update_quantity\": User wants to change the quantity of an existing dish in the cart.\n" ++
     "        - \"check_cart\": User asks to review what is in their cart.\n" ++
     "        - \"confirm_order\": User confirms or finalizes their order.\n" ++
     "        - \"recommend_dish\": User asks for suggestions.\n" ++
     "        - \"ask_calories\": User asks about calorie or nutrition information.\n" ++
     "        - \"ask_ingredients\": User asks what ingredients are in a dish.\n" ++
     "        - \"ask_price\": User asks the cost or price of something.\n" ++
     "        - \"ask_category\": User asks for a specific food type.\n" ++
     "        - \"restaurant_info\": User asks about restaurant hours, address, or contact.\n" ++
     "        - \"greet\": User greets you.\n" ++
     "        - \"goodbye\": User says goodbye.\n" ++
     "        - \"unknown\": If you cannot classify the intent confidently.\n\n        ---\n\n" ++
     "        Rules:\n" ++
     "        - Be concise, natural, and warm - sound like a helpful human waiter.\n" ++
     "        - When describing dishes, mention price, calories, and key ingredients if available.\n" ++
     "        - Always ensure the JSON is valid and contains *no* extra text or comments outside it.\n" ++
     "        - Use items array to list exact dish names if they appear or are inferred from context.\n" ++
     "        - If user asks about a healthy, spicy, vegan, or low-calorie dish, use recommend_dish.\n" ++
     "        - If multiple intents apply, choose the **main action**.\n\n        ---\n\n" ++
     "        Now produce the JSON output:\n    ")

/-- The fallback structure built when `json.loads` fails (llm.py 130-134). -/
def fallbackResult (text : String) : JVal :=
  .obj [("intent", .str "chat"), ("reply", .str text), ("items", .list [])]

/-- The decode-or-degrade step of `generate_response` (llm.py 129-135),
applied to the stripped completion text: strict decode, with the
`{intent: "chat", reply: text, items: []}` fallback on failure.  Total —
the `except` swallows every decode error. -/
def parseModelText (text : String) : JVal :=
  match jsonLoads text with
  | .ok v => v
  | .error _ => fallbackResult text

/-- The Groq completion call as an oracle from the final prompt to the raw
completion text (`client.chat.completions.create … .message.content`). -/
abbrev GroqComplete := String → String

/-- `generate_response` (llm.py 103-135): build the prompt, call the
completion oracle, strip, decode-or-degrade. -/
def generate_response (complete : GroqComplete)
    (restaurant_name menu_context user_query : String)
    (chat_history : List HistEntry) (cart : List CartEntry) : JVal :=
  let prompt := build_prompt restaurant_name menu_context user_query chat_history cart
  let text := pyStrip (complete prompt)
  parseModelText text

/-! ## `api/models.py` — the stores the view touches -/

/-- A `ChatSession` row (models.py 208-215): JSON `history` and `cart`
lists, keyed by an opaque id, tagged with a restaurant id (a plain UUID
column, not a foreign key — creation does not check the restaurant). -/
structure Session where
  id : String
  restaurant_id : String
  history : List HistEntry
  cart : List CartEntry
deriving Repr

/-- An `Order` row as `Order.objects.create` would produce it. -/
structure OrderRec where
  id : String
  restaurant_id : String
  total : Rat
  status : String
  customer_name : String
  table_number : String
deriving Repr

/-- The mutable database state: saved chat sessions and orders. -/
structure DB where
  sessions : List Session
  orders : List OrderRec
deriving Repr

/-- `ChatSession.objects.filter(id=sid).first()`. -/
def findSession (ss : List Session) (sid : String) : Option Session :=
  ss.find? (fun s => s.id == sid)

/-- `chat_session.save()`: update the row with this primary key. -/
def saveSession (db : DB) (s : Session) : DB :=
  { db with sessions := db.sessions.map (fun t => if t.id = s.id then s else t) }

/-- Concrete, settable attributes of the `Order` model (models.py 94-109).
The `items` JSONField is commented out in the source (line 104), so it is
NOT here; `id` is the UUID primary key and `restaurant_id` the FK column. -/
def orderConcreteFields : List String :=
  ["id", "restaurant", "restaurant_id", "total", "status", "created_at",
   "customer_name", "table_number"]

/-- Reverse-relation accessors on `Order` (`OrderItem.order` has
`related_name="items"`, `Invoice.order` has `related_name="invoice"`);
Django refuses direct assignment to these. -/
def orderReverseAccessors : List String := ["items", "invoice"]

/-- Value of a string-typed kwarg, with default, for the accepted branch. -/
def kwStr (kwargs : PyDict) (k : String) (dflt : String) : String :=
  match lookupKey kwargs k with
  | some (.str s) => s
  | _ => dflt

/-- Value of a numeric kwarg, for the accepted branch. -/
def kwRat (kwargs : PyDict) (k : String) : Rat :=
  match lookupKey kwargs k with
  | some (.float q) => q
  | some (.int n) => (n : Rat)
  | _ => 0

/-- `Order.objects.create(**kwargs)`: Django's `Model.__init__` walks the
kwargs; a kwarg naming a reverse relation raises `TypeError` ("Direct
assignment to the reverse side of a related set is prohibited"), any other
unknown kwarg raises `TypeError` as well; otherwise the row is built and
inserted. -/
def orderObjectsCreate (db : DB) (fresh_id : String) (kwargs : PyDict) :
    (Except PyErr OrderRec) × DB :=
  match kwargs.find? (fun kv => ¬ orderConcreteFields.contains kv.1) with
  | some kv =>
    if orderReverseAccessors.contains kv.1 then
      (.error (.typeError ("Direct assignment to the reverse side of a related set is prohibited. Use " ++ kv.1 ++ ".set() instead.")), db)
    else
      (.error (.typeError ("Order() got unexpected keyword arguments: \x27" ++ kv.1 ++ "\x27")), db)
  | none =>
    let o : OrderRec :=
      { id := fresh_id
        restaurant_id := kwStr kwargs "restaurant_id" ""
        total := kwRat kwargs "total"
        status := kwStr kwargs "status" "pending"
        customer_name := kwStr kwargs "customer_name" ""
        table_number := kwStr kwargs "table_number" "" }
    (.ok o, { db with orders := db.orders ++ [o] })

/-- A `Dish` row, restricted to the fields the describe branch reads
(views.py 292-300).  `price` is a `Decimal(8,2)`; we carry its rendered
form (e.g. `"150.00"`), and `calories` is a nullable integer. -/
structure DishRec where
  nameD : String
  description : String
  price_str : String
  calories : Option Int
deriving Repr

/-! ## `api/views.py` — `VirtualWaiterView.post` -/

/-- The request body `{restaurant_id, user_query, session_id?}`; a field
can be absent (`None`) or present (possibly empty — both are falsy). -/
structure ChatRequest where
  restaurant_id : Option String
  user_query : Option String
  session_id : Option String
deriving Repr

/-- The external collaborators of one chat turn. -/
structure Env where
  /-- `uuid4` for a `ChatSession.objects.create` in this turn. -/
  fresh_session_id : String
  /-- `uuid4` for an `Order.objects.create` in this turn. -/
  fresh_order_id : String
  /-- `Restaurant.objects.get(id=rid)`: `none` models `DoesNotExist`,
  `some name` the found row's `name` (the only field the view reads). -/
  restaurant_name : String → Option String
  /-- The Chroma index oracle (see `ChromaQuery`). -/
  chroma : ChromaQuery
  /-- The Groq completion oracle (see `GroqComplete`). -/
  complete : GroqComplete
  /-- `Dish.objects.filter(name__iexact=name, restaurant_id=rid).first()`;
  the case-insensitive matching lives in the oracle. -/
  dish_filter : String → String → Option DishRec

/-- The structured 200 body of a successful turn (views.py 333-340). -/
structure ChatBody where
  session_id : String
  intent : JVal
  reply : JVal
  context_items : List PyDict
  cart : List CartEntry
  history : List HistEntry
deriving Repr

/-- The HTTP outcomes of `post`. -/
inductive Resp where
  | ok (body : ChatBody)
  | badRequest (error : String)
  | notFound (error : String)
  | serverError (error : String)
deriving Repr

/-- The generic 500 of the outer `except Exception as e` (views.py 345-346). -/
def errorResp (e : PyErr) : Resp := .serverError (pyErrStr e)

/-- Step 1 of the turn (views.py 230-235): load the session by id when one
was (truthily) supplied and it exists, else create a fresh session with
empty history and cart — `ChatSession.objects.create` inserts the row
immediately.  Returns the session and the possibly-grown database. -/
def sessionStage (env : Env) (db : DB) (session_id : Option String)
    (rid : String) : Session × DB :=
  match (match session_id with
         | some sid => if sid = "" then none else findSession db.sessions sid
         | none => none) with
  | some s => (s, db)
  | none =>
    let s : Session := { id := env.fresh_session_id, restaurant_id := rid,
                         history := [], cart := [] }
    (s, { db with sessions := db.sessions ++ [s] })

/-- The `context_items` dict built per retrieved doc (views.py 243-249).
NOTE the keys it reads: `item_id` and `name` — not the `dish_id` and
`dish_name` that `metaProject` produces. -/
def contextItemOf (d : DocEntry) : Except PyErr PyDict := do
  let i ← getItem d.meta "item_id"
  let n ← getItem d.meta "name"
  let p ← getItem d.meta "price"
  let c ← getItem d.meta "calories"
  let t ← getItem d.meta "tags"
  .ok [("id", i), ("name", n), ("price", p), ("calories", c), ("tags", t)]

/-- The `context_items` list comprehension (views.py 242-251). -/
def buildContextItems : List DocEntry → Except PyErr (List PyDict)
  | [] => .ok []
  | d :: rest => do
    let item ← contextItemOf d
    let items ← buildContextItems rest
    .ok (item :: items)

/-- One line of the inline `menu_context` join (views.py 253). -/
def menuLineInline (d : DocEntry) : Except PyErr String := do
  let n ← getItem d.meta "name"
  let p ← getItem d.meta "price"
  let c ← getItem d.meta "calories"
  let t ← getItem d.meta "tags"
  .ok (pyStr n ++ " | ₹" ++ pyStr p ++ " | " ++ pyStr c ++ " kcal | " ++ pyStr t)

/-- The inline `menu_context` (views.py 252-255): the view does NOT call
`build_menu_context`; it joins its own per-doc lines with newlines, so an
empty retrieval yields the empty string. -/
def menuContextInline (docs : List DocEntry) : Except PyErr String := do
  let lines ← docs.mapM menuLineInline
  .ok (pyJoin "\n" lines)

/-- `result.get(k, default)`: only dicts have `.get`. -/
def pyGet (v : JVal) (k : String) (dflt : JVal) : Except PyErr JVal :=
  match v with
  | .obj kvs => .ok ((lookupKey kvs k).getD dflt)
  | _ => .error (.attributeError "object has no attribute \x27get\x27")

/-- `[name.lower() for name in xs]` (views.py 270): iterating a list lowers
its (string) elements, a string iterates its characters, a dict its keys;
anything else is not iterable. -/
def pyLowerEach : JVal → Except PyErr (List String)
  | .list xs => xs.mapM (fun v =>
      match v with
      | .str s => .ok (pyLower s)
      | _ => .error (.attributeError "object has no attribute \x27lower\x27"))
  | .str s => .ok (s.data.map (fun c => pyLower (String.singleton c)))
  | .obj kvs => .ok (kvs.map (fun kv => pyLower kv.1))
  | _ => .error (.typeError "object is not iterable")

/-- `item["name"]` of a context item, as stored by `contextItemOf`. -/
def ctxName (item : PyDict) : Except PyErr JVal := getItem item "name"

/-- The cart entry appended by the add_to_cart branch (views.py 277-282):
quantity 1 at the item's current retrieved price. -/
def cartEntryOfItem (item : PyDict) : CartEntry :=
  { dish_id := (lookupKey item "id").getD .null
    nameV := (lookupKey item "name").getD .null
    price := (lookupKey item "price").getD .null
    qty := .int 1 }

/-- The add_to_cart loop (views.py 274-283): walk the context items; on a
case-insensitive name match against the model-reported items, append a new
cart entry and record the added name. -/
def addLoop (mentioned_items : List String) :
    List PyDict → List CartEntry → List String →
    Except PyErr (List CartEntry × List String)
  | [], cart, added => .ok (cart, added)
  | item :: rest, cart, added => do
    let nm ← ctxName item
    match nm with
    | .str s =>
      if mentioned_items.contains (pyLower s) then
        addLoop mentioned_items rest (cart ++ [cartEntryOfItem item]) (added ++ [s])
      else
        addLoop mentioned_items rest cart added
    | _ => .error (.attributeError "object has no attribute \x27lower\x27")

/-- The add_to_cart branch (views.py 273-286): run the loop; if anything
was added, overwrite the reply with the deterministic confirmation, else
keep the model's reply and the cart as they were. -/
def addToCartBranch (context_items : List PyDict) (mentioned_items : List String)
    (cart : List CartEntry) (reply : JVal) : Except PyErr (List CartEntry × JVal) := do
  let r ← addLoop mentioned_items context_items cart []
  match r with
  | (cart2, added) =>
    if added.isEmpty then .ok (cart2, reply)
    else .ok (cart2, .str ("✅ Added " ++ pyJoin ", " added ++ " to your cart."))

/-- The reply the describe branch builds from the authoritative Dish row
(views.py 297-300): `description or` default, `calories or` N/A. -/
def describeReply (dish : DishRec) : JVal :=
  .str (dish.nameD ++ ": " ++
        (if dish.description = "" then "No description available." else dish.description) ++
        " (₹" ++ dish.price_str ++ ", " ++
        (match dish.calories with
         | some c => if c = 0 then "N/A" else toString c
         | none => "N/A") ++ " kcal)")

/-- The describe_dish loop (views.py 289-301). -/
def describeLoop (env : Env) (rid : String) (mentioned_items : List String) :
    List PyDict → List String → JVal → Except PyErr (List String × JVal)
  | [], described, reply => .ok (described, reply)
  | item :: rest, described, reply => do
    let nm ← ctxName item
    match nm with
    | .str s =>
      if mentioned_items.contains (pyLower s) then
        match env.dish_filter s rid with
        | some dish =>
          describeLoop env rid mentioned_items rest (described ++ [dish.nameD]) (describeReply dish)
        | none => describeLoop env rid mentioned_items rest described reply
      else describeLoop env rid mentioned_items rest described reply
    | _ => .error (.attributeError "object has no attribute \x27lower\x27")

/-- The describe_dish branch (views.py 288-303): on no resolution and a
falsy reply, fall back to the clarification question. -/
def describeBranch (env : Env) (rid : String) (context_items : List PyDict)
    (mentioned_items : List String) (reply : JVal) : Except PyErr JVal := do
  let r ← describeLoop env rid mentioned_items context_items [] reply
  match r with
  | (described, reply2) =>
    if described.isEmpty ∧ pyFalsy reply2 then
      .ok (.str "Could you clarify which dish you\x27d like me to describe?")
    else .ok reply2

/-- `float(i["price"])` (views.py 309). -/
def pyFloatOf : JVal → Except PyErr Rat
  | .float q => .ok q
  | .int n => .ok (n : Rat)
  | .bool b => .ok (if b then 1 else 0)
  | _ => .error (.typeError "float() argument must be a string or a real number")

/-- `float(i["price"]) * i["qty"]` (views.py 309). -/
def pyMulQty (a : Rat) : JVal → Except PyErr Rat
  | .int n => .ok (a * (n : Rat))
  | .float q => .ok (a * q)
  | .bool b => .ok (a * (if b then 1 else 0))
  | _ => .error (.typeError "unsupported operand type for *")

/-- `sum(float(i["price"]) * i["qty"] for i in cart)` (views.py 309). -/
def totalOfCart : List CartEntry → Except PyErr Rat
  | [] => .ok 0
  | e :: rest => do
    let p ← pyFloatOf e.price
    let x ← pyMulQty p e.qty
    let r ← totalOfCart rest
    .ok (x + r)

/-- A cart entry as the JSON value `items=cart` would pass along. -/
def cartEntryJ (e : CartEntry) : JVal :=
  .obj [("dish_id", e.dish_id), ("name", e.nameV), ("price", e.price), ("qty", e.qty)]

/-- `f"{total:.2f}"`: two decimal places, ties to even. -/
def format2f (q : Rat) : String :=
  let x := q * 100
  let fl := x.floor
  let n : Int :=
    if x - (fl : Rat) > 1/2 then fl + 1
    else if x - (fl : Rat) < 1/2 then fl
    else if fl % 2 = 0 then fl else fl + 1
  let a := n.natAbs
  (if n < 0 then "-" else "") ++ toString (a / 100) ++ "." ++ padZeros 2 (a % 100)

/-- The confirm_order branch (views.py 305-319): empty (falsy) cart gets
the empty-cart notice and nothing else happens; otherwise the total is
computed, `Order.objects.create` is called — with the `items=cart` kwarg
the current model no longer has — the session cart is cleared and the
deterministic confirmation built. -/
def confirmOrderBranch (env : Env) (db : DB) (rid : String)
    (cart : List CartEntry) (_reply : JVal) :
    (Except PyErr (List CartEntry × JVal)) × DB :=
  if cart.isEmpty then
    ((.ok (cart, .str "Your cart is empty. Please add some dishes first.")), db)
  else
    match totalOfCart cart with
    | .error e => (.error e, db)
    | .ok total =>
      match orderObjectsCreate db env.fresh_order_id
        [("restaurant_id", .str rid),
         ("items", .list (cart.map cartEntryJ)),
         ("total", .float total),
         ("status", .str "pending"),
         ("customer_name", .str "Guest"),
         ("table_number", .str "Virtual")] with
      | (.error e, db2) => (.error e, db2)
      | (.ok order, db2) =>
        ((.ok ([], .str ("🧾 Your order (#" ++ order.id ++ ") has been placed! Total ₹" ++
                         format2f total ++ "."))), db2)

/-- `intent == "branch"`: Python equality of the (possibly non-string)
intent value against a string literal. -/
def intentIs (intent : JVal) (s : String) : Bool :=
  match intent with
  | .str t => t = s
  | _ => false

/-- Step 4 of the turn (views.py 272-319): the intent executor.  Only
`add_to_cart`, `describe_dish` and `confirm_order` are special-cased;
every other intent passes the model's reply through and mutates nothing. -/
def executeIntent (env : Env) (db : DB) (rid : String)
    (context_items : List PyDict) (mentioned_items : List String)
    (cart : List CartEntry) (reply : JVal) (intent : JVal) :
    (Except PyErr (List CartEntry × JVal)) × DB :=
  if intentIs intent "add_to_cart" then
    (addToCartBranch context_items mentioned_items cart reply, db)
  else if intentIs intent "describe_dish" then
    match describeBranch env rid context_items mentioned_items reply with
    | .error e => (.error e, db)
    | .ok reply2 => (.ok (cart, reply2), db)
  else if intentIs intent "confirm_order" then
    confirmOrderBranch env db rid cart reply
  else
    (.ok (cart, reply), db)

/-- The 400 message for missing fields (views.py 226). -/
def requiredMsg : String :=
  "Both \x27restaurant_id\x27 and \x27user_query\x27 are required."

/-- The body of the `try` after validation (views.py 230-340), for
non-falsy `rid` and `q`.  State mutations made before an exception
persist (no transaction wraps the view). -/
def postBody (env : Env) (db : DB) (session_id : Option String)
    (rid q : String) : Resp × DB :=
  -- `sessionStage` is step 1 of the source; the model is pure, so the
  -- session-stage result is simply referenced from every outcome below
  -- (its database — which the create may have grown — is what each error
  -- response is paired with, mirroring the absence of a transaction).
  match buildContextItems (retrieve_menu_items env.chroma rid q 5) with
  | .error e => (errorResp e, (sessionStage env db session_id rid).2)
  | .ok context_items =>
  match menuContextInline (retrieve_menu_items env.chroma rid q 5) with
  | .error e => (errorResp e, (sessionStage env db session_id rid).2)
  | .ok menu_context =>
  match env.restaurant_name rid with
  | none => (.notFound "Restaurant not found.", (sessionStage env db session_id rid).2)
  | some rname =>
  match pyGet (generate_response env.complete rname menu_context q
      (sessionStage env db session_id rid).1.history
      (sessionStage env db session_id rid).1.cart) "intent" (.str "chat") with
  | .error e => (errorResp e, (sessionStage env db session_id rid).2)
  | .ok intent =>
  match pyGet (generate_response env.complete rname menu_context q
      (sessionStage env db session_id rid).1.history
      (sessionStage env db session_id rid).1.cart) "reply" (.str "") with
  | .error e => (errorResp e, (sessionStage env db session_id rid).2)
  | .ok reply0 =>
  match pyGet (generate_response env.complete rname menu_context q
      (sessionStage env db session_id rid).1.history
      (sessionStage env db session_id rid).1.cart) "items" (.list []) with
  | .error e => (errorResp e, (sessionStage env db session_id rid).2)
  | .ok itemsV =>
  match pyLowerEach itemsV with
  | .error e => (errorResp e, (sessionStage env db session_id rid).2)
  | .ok mentioned_items =>
  match executeIntent env (sessionStage env db session_id rid).2 rid context_items
      mentioned_items (sessionStage env db session_id rid).1.cart reply0 intent with
  | (.error e, db2) => (errorResp e, db2)
  | (.ok (cart2, reply2), db2) =>
    let hist2 := (sessionStage env db session_id rid).1.history ++
      [{ role := "user", content := .str q, intent := none, context_items := none },
       { role := "assistant", content := reply2, intent := some intent,
         context_items := some context_items }]
    let sess2 : Session :=
      { (sessionStage env db session_id rid).1 with history := hist2, cart := cart2 }
    (.ok { session_id := sess2.id, intent := intent, reply := reply2,
           context_items := context_items, cart := sess2.cart,
           history := pyLastN 5 hist2 }, saveSession db2 sess2)

/-- `VirtualWaiterView.post` (views.py 218-346): validation, then the turn
body; `Restaurant.DoesNotExist` becomes the 404 inside `postBody`, any
other raise the generic 500. -/
def post (env : Env) (db : DB) (req : ChatRequest) : Resp × DB :=
  match req.restaurant_id, req.user_query with
  | some rid, some q =>
    if rid = "" ∨ q = "" then (.badRequest requiredMsg, db)
    else postBody env db req.session_id rid q
  | _, _ => (.badRequest requiredMsg, db)

/-! ## Concrete fixtures

Environments and requests used by the concrete theorems below.  Ids are
UUID-shaped so that the unmodelled UUID validation of the `ChatSession`
and `Order` columns is satisfied on these inputs. -/

def ridW : String := "5dd31c71-8a0e-4928-8810-a2d2f5336341"
def ridGhost : String := "eeeeeeee-5555-4555-8555-555555555555"
def sidFreshW : String := "aaaaaaaa-1111-4111-8111-111111111111"
def oidW : String := "bbbbbbbb-2222-4222-8222-222222222222"
def dishIdW : String := "cccccccc-3333-4333-8333-333333333333"
def dishId2W : String := "ffffffff-6666-4666-8666-666666666666"
def sidW : String := "dddddddd-4444-4444-8444-444444444444"

/-- Metadata of an indexed dish, with the exact keys `index_to_chroma.py`
stores and `retrieve_menu_items` projects. -/
def rawMetaW : PyDict :=
  [("dish_id", .str dishIdW), ("dish_name", .str "Paneer Tikka"),
   ("restaurant_name", .str "Spice Villa"), ("price", .float 150),
   ("calories", .int 400), ("category", .str "Starters"),
   ("tags", .str "spicy, veg"), ("ingredients", .str "paneer, spices"),
   ("chef_special", .str "No"), ("image_url", .str ""), ("video_url", .str ""),
   ("model_3d_url", .str "")]

/-- An environment whose index yields one document for `ridW`. -/
def envHit : Env :=
  { fresh_session_id := sidFreshW
    fresh_order_id := oidW
    restaurant_name := fun r => if r = ridW then some "Spice Villa" else none
    chroma := fun r _ _ =>
      if r = ridW then some (["Paneer Tikka | menu text"], [some rawMetaW]) else none
    complete := fun _ => ""
    dish_filter := fun _ _ => none }

def dbEmpty : DB := { sessions := [], orders := [] }

def reqNew : ChatRequest :=
  { restaurant_id := some ridW, user_query := some "something spicy under 200",
    session_id := none }

/-- A one-entry cart: Paneer Tikka at 150.0, quantity 1. -/
def cartW : List CartEntry :=
  [{ dish_id := .str dishIdW, nameV := .str "Paneer Tikka",
     price := .float 150, qty := .int 1 }]

def sessW : Session := { id := sidW, restaurant_id := ridW, history := [], cart := cartW }

def dbWithCart : DB := { sessions := [sessW], orders := [] }

/-- A well-formed model output classifying the turn as `confirm_order`. -/
def confirmJson : String :=
  "\x7b\"intent\": \"confirm_order\", \"reply\": \"Placing your order now!\", \"items\": []\x7d"

/-- Environment for a confirm-order turn: empty retrieval, known
restaurant, model says `confirm_order`. -/
def envConfirm : Env :=
  { envHit with chroma := fun _ _ _ => none, complete := fun _ => confirmJson }

def reqConfirm : ChatRequest :=
  { restaurant_id := some ridW, user_query := some "place my order",
    session_id := some sidW }

/-- Environment where no restaurant resolves and the index is empty. -/
def envNoRest : Env :=
  { envHit with restaurant_name := fun _ => none, chroma := fun _ _ _ => none }

def reqGhost : ChatRequest :=
  { restaurant_id := some ridGhost, user_query := some "hello", session_id := none }

/-- A free-text (non-JSON) model completion. -/
def chatText : String := "Hello! What would you like today?"

/-- Environment for a plain chat turn: empty retrieval, known restaurant,
malformed model output (degrades to the chat fallback). -/
def envChat : Env :=
  { envHit with chroma := fun _ _ _ => none, complete := fun _ => chatText }

def reqChat : ChatRequest :=
  { restaurant_id := some ridW, user_query := some "hi there", session_id := none }

/-- Two context items as the view would build them. -/
def ctxW : List PyDict :=
  [[("id", .str dishIdW), ("name", .str "Paneer Tikka"), ("price", .float 150),
    ("calories", .int 400), ("tags", .str "spicy, veg")],
   [("id", .str dishId2W), ("name", .str "Veg Biryani"), ("price", .float 180),
    ("calories", .int 600), ("tags", .str "veg")]]

/-- A document whose dish name contains a newline character. -/
def docNl : DocEntry := { text := "doc", meta := metaProject [("dish_name", .str "Pane\ner Tikka")] }

/-! ## Helper lemmas -/

/-- When the index yields nothing, retrieval yields nothing. -/
theorem retrieve_nil_of_chroma_none (chroma : ChromaQuery) (rid q : String) (k : Nat)
    (h : chroma rid q k = none) : retrieve_menu_items chroma rid q k = [] := by
  unfold retrieve_menu_items
  split
  · rfl
  · rw [h]

/-- The session produced by `sessionStage` is (by id) among the sessions of
the database `sessionStage` returns. -/
theorem sessionStage_mem (env : Env) (db : DB) (sid : Option String) (rid : String) :
    ∃ t ∈ (sessionStage env db sid rid).2.sessions,
      t.id = (sessionStage env db sid rid).1.id := by
  unfold sessionStage
  split
  next s hsid =>
    refine ⟨s, ?_, rfl⟩
    rcases sid with _ | x
    · simp at hsid
    · simp only [] at hsid
      split at hsid
      · simp at hsid
      · unfold findSession at hsid
        exact List.mem_of_find?_eq_some hsid
  next hsid =>
    exact ⟨_, List.mem_append_right _ (List.mem_singleton.mpr rfl), rfl⟩

/-- `orderObjectsCreate` never touches the session store. -/
theorem orderObjectsCreate_sessions (db : DB) (fid : String) (kwargs : PyDict) :
    ((orderObjectsCreate db fid kwargs).2).sessions = db.sessions := by
  unfold orderObjectsCreate
  split
  · split <;> rfl
  · rfl

/-- The intent executor never touches the session store. -/
theorem executeIntent_sessions (env : Env) (db : DB) (rid : String)
    (ctx : List PyDict) (mi : List String) (cart : List CartEntry)
    (reply intent : JVal) :
    ((executeIntent env db rid ctx mi cart reply intent).2).sessions = db.sessions := by
  unfold executeIntent
  split
  · rfl
  split
  · split <;> rfl
  split
  · unfold confirmOrderBranch
    split
    · rfl
    split
    · rfl
    split
    next e db2 heq =>
      have h2 := congrArg (fun p => p.2) heq
      simp only [] at h2
      rw [← h2, orderObjectsCreate_sessions]
    next o db2 heq =>
      have h2 := congrArg (fun p => p.2) heq
      simp only [] at h2
      rw [← h2, orderObjectsCreate_sessions]
  · rfl

/-- Saving a session whose id already occurs in the list makes it findable. -/
theorem find_update (l : List Session) (s t : Session) (ht : t ∈ l)
    (hid : t.id = s.id) :
    (l.map (fun u => if u.id = s.id then s else u)).find? (fun u => u.id == s.id) =
      some s := by
  induction l with
  | nil => cases ht
  | cons a as ih =>
    by_cases ha : a.id = s.id
    · simp only [List.map_cons, if_pos ha]
      rw [List.find?_cons_of_pos]
      simp
    · simp only [List.map_cons, if_neg ha]
      rw [List.find?_cons_of_neg]
      · rcases List.mem_cons.mp ht with rfl | hmem
        · exact absurd hid ha
        · exact ih hmem
      · simp [ha]

/-- `findSession` after `saveSession` returns the saved row, provided some
row with its id was already stored. -/
theorem findSession_saveSession (db : DB) (s : Session)
    (h : ∃ t ∈ db.sessions, t.id = s.id) :
    findSession (saveSession db s).sessions s.id = some s := by
  obtain ⟨t, ht, hid⟩ := h
  unfold findSession saveSession
  exact find_update db.sessions s t ht hid

/-! ## C1 -/

/-- C1: the claim that a session-less `POST /chat` with a valid restaurant
and non-empty query succeeds is contradicted by the code: `views.py`
projects context items by reading `meta["item_id"]` / `meta["name"]`, but
`retrieve_menu_items` produces the keys `dish_id` / `dish_name`, so as soon
as retrieval returns a document the turn raises `KeyError('item_id')` and
the endpoint answers 500 — here shown on a turn whose index returns one
Paneer Tikka document for the queried restaurant.  The data was present in
the retrieved metadata, only under the other key names. -/
theorem c1_chat_turn_crashes_on_retrieved_items :
    post envHit dbEmpty reqNew =
      (.serverError "\x27item_id\x27",
       { sessions := [{ id := sidFreshW, restaurant_id := ridW,
                        history := [], cart := [] }],
         orders := [] }) ∧
    lookupKey (metaProject rawMetaW) "item_id" = none ∧
    lookupKey (metaProject rawMetaW) "dish_name" = some (.str "Paneer Tikka") :=
  ⟨rfl, rfl, rfl⟩

/-! ## C2 -/

/-- C2: the claim that `confirm_order` on a non-empty cart creates an Order
with total Σ(price × qty) and clears the cart is contradicted by the code:
the total is indeed Σ(price × qty) (here 150), but `Order.objects.create`
is called with the `items=cart` keyword while the `Order` model's `items`
JSONField is commented out (models.py line 104), so the call raises
`TypeError` (assignment to the reverse relation `items`), the turn answers
500, no order is created, the cart is not cleared and no confirmation
reply is produced. -/
theorem c2_confirm_order_crashes_on_order_create :
    totalOfCart cartW = .ok 150 ∧
    post envConfirm dbWithCart reqConfirm =
      (.serverError "Direct assignment to the reverse side of a related set is prohibited. Use items.set() instead.",
       dbWithCart) ∧
    dbWithCart.orders = [] ∧ sessW.cart = cartW :=
  ⟨by norm_num [totalOfCart, cartW, pyFloatOf, pyMulQty, bind, Except.bind], rfl, rfl, rfl⟩

/-! ## C3 -/

/-- C3 counterexample: a `POST /chat` with an unknown restaurant id does
report the not-found error, but a session IS created: `views.py` calls
`ChatSession.objects.create` (line 235) before `Restaurant.objects.get`
(line 257), and the created row persists when the 404 is returned — the
claim's "no session is created" is false. -/
theorem c3_counterexample_session_created_on_unknown_restaurant :
    post envNoRest dbEmpty reqGhost =
      (.notFound "Restaurant not found.",
       { sessions := [{ id := sidFreshW, restaurant_id := ridGhost,
                        history := [], cart := [] }],
         orders := [] }) ∧
    dbEmpty.sessions.length = 0 ∧
    (post envNoRest dbEmpty reqGhost).2.sessions.length = 1 :=
  ⟨rfl, rfl, rfl⟩

/-- C3 amended: for every session-less call whose restaurant id does not
resolve (and whose index has nothing for it), the endpoint reports the
not-found error — but a newly created session (empty history and cart,
tagged with the unknown restaurant id) has already been inserted and
persists in the store. -/
theorem c3_amended_not_found_but_session_persisted
    (env : Env) (db : DB) (req : ChatRequest) (rid q : String)
    (hr : req.restaurant_id = some rid) (hq : req.user_query = some q)
    (hrid : rid ≠ "") (hqne : q ≠ "") (hsid : req.session_id = none)
    (hrest : env.restaurant_name rid = none)
    (hchroma : env.chroma rid q 5 = none) :
    post env db req =
      (.notFound "Restaurant not found.",
       { db with sessions := db.sessions ++
           [{ id := env.fresh_session_id, restaurant_id := rid,
              history := [], cart := [] }] }) := by
  have hdocs := retrieve_nil_of_chroma_none env.chroma rid q 5 hchroma
  obtain ⟨a, b, c⟩ := req
  simp only [] at hr hq hsid
  subst hr hq hsid
  unfold post
  dsimp only
  rw [if_neg (by simp [hrid, hqne])]
  unfold postBody sessionStage
  simp only [hdocs, hrest]
  rfl

/-- C3 amended, witnessed at a concrete unknown restaurant. -/
theorem c3_amended_witness :
    post envNoRest dbEmpty reqGhost =
      (.notFound "Restaurant not found.",
       { dbEmpty with sessions := dbEmpty.sessions ++
           [{ id := envNoRest.fresh_session_id, restaurant_id := ridGhost,
              history := [], cart := [] }] }) :=
  c3_amended_not_found_but_session_persisted envNoRest dbEmpty reqGhost ridGhost "hello"
    rfl rfl (by decide) (by decide) rfl rfl rfl

/-! ## C5 -/

/-- C5: response parsing is total and degrades exactly to
`{intent: "chat", reply: <text>, items: []}` whenever the strict decode of
the model's text fails; a malformed-output turn thus still carries a
user-visible reply instead of an error. -/
theorem c5_parse_fallback_on_decode_failure (text : String) (e : String)
    (h : jsonLoads text = .error e) :
    parseModelText text =
      .obj [("intent", .str "chat"), ("reply", .str text), ("items", .list [])] := by
  unfold parseModelText
  rw [h]
  rfl

/-- C5 witness: a plain-prose completion fails the strict decode and
parses to the chat fallback carrying the raw text. -/
theorem c5_witness :
    jsonLoads "Sorry, here are some options for you." = .error "Expecting value" ∧
    parseModelText "Sorry, here are some options for you." =
      .obj [("intent", .str "chat"),
            ("reply", .str "Sorry, here are some options for you."),
            ("items", .list [])] :=
  ⟨rfl, c5_parse_fallback_on_decode_failure "Sorry, here are some options for you."
    "Expecting value" rfl⟩

/-! ## C6 -/

/-- C6: executing `confirm_order` on an empty cart touches neither the
order store nor the cart: the database comes back unchanged (no
`Order.objects.create` call), the cart stays empty, and the reply is
overwritten with the empty-cart notice — an ordinary `.ok` outcome, not an
error. -/
theorem c6_confirm_order_empty_cart (env : Env) (db : DB) (rid : String)
    (context_items : List PyDict) (mentioned_items : List String) (reply : JVal) :
    executeIntent env db rid context_items mentioned_items [] reply
        (.str "confirm_order") =
      ((.ok ([], .str "Your cart is empty. Please add some dishes first.")), db) :=
  rfl

/-! ## C9 -/

/-- C9 counterexample: a complete, successful chat turn in which retrieval
returns no items and the menu-context block handed to prompt construction
is the empty string — not the fixed no-matches sentence.  The view builds
its context inline (views.py 252-255) and never calls `build_menu_context`,
so the claimed invariant fails. -/
theorem c9_counterexample_empty_menu_context :
    post envChat dbEmpty reqChat =
      (.ok { session_id := sidFreshW, intent := .str "chat",
             reply := .str chatText, context_items := [], cart := [],
             history :=
               [{ role := "user", content := .str "hi there",
                  intent := none, context_items := none },
                { role := "assistant", content := .str chatText,
                  intent := some (.str "chat"), context_items := some [] }] },
       { sessions := [{ id := sidFreshW, restaurant_id := ridW,
                        history :=
                          [{ role := "user", content := .str "hi there",
                             intent := none, context_items := none },
                           { role := "assistant", content := .str chatText,
                             intent := some (.str "chat"),
                             context_items := some [] }],
                        cart := [] }],
         orders := [] }) ∧
    menuContextInline (retrieve_menu_items envChat.chroma ridW "hi there" 5) = .ok "" ∧
    "" ≠ noMatchMsg :=
  ⟨rfl, rfl, by decide⟩

/-- C9 amended: the Context Formatter itself (`build_menu_context`) does
map the empty item list to the fixed no-matches sentence, but the chat
endpoint does not use it: its inline join hands the generative model the
empty string whenever retrieval returns no items. -/
theorem c9_amended_formatter_unused_by_view :
    build_menu_context [] = .ok noMatchMsg ∧
    (∀ (chroma : ChromaQuery) (rid q : String) (k : Nat),
      retrieve_menu_items chroma rid q k = [] →
      menuContextInline (retrieve_menu_items chroma rid q k) = .ok "") ∧
    "" ≠ noMatchMsg := by
  refine ⟨rfl, ?_, by decide⟩
  intro chroma rid q k h
  rw [h]
  rfl

/-- C9 amended, witnessed on the concrete empty-retrieval turn. -/
theorem c9_witness :
    menuContextInline (retrieve_menu_items envChat.chroma ridW "hi there" 5) = .ok "" :=
  c9_amended_formatter_unused_by_view.2.1 envChat.chroma ridW "hi there" 5 rfl

/-! ## C4 -/

/-- The context items the add_to_cart loop matches: name (a string)
case-insensitively contained in the lowered model-reported names. -/
def addMatches (mentioned : List String) (ctx : List PyDict) : List PyDict :=
  ctx.filter (fun item =>
    match lookupKey item "name" with
    | some (.str s) => mentioned.contains (pyLower s)
    | _ => false)

/-- The names the add loop collects, in order. -/
def addedNames (mentioned : List String) (ctx : List PyDict) : List String :=
  (addMatches mentioned ctx).map (fun item =>
    match lookupKey item "name" with
    | some (.str s) => s
    | _ => "")

/-- Closed form of the add_to_cart loop, for context items whose names are
strings (as the view builds them). -/
theorem addLoop_spec (mentioned : List String) (ctx : List PyDict)
    (h : ∀ item ∈ ctx, ∃ s, lookupKey item "name" = some (.str s)) :
    ∀ (cart : List CartEntry) (added : List String),
    addLoop mentioned ctx cart added =
      .ok (cart ++ (addMatches mentioned ctx).map cartEntryOfItem,
           added ++ addedNames mentioned ctx) := by
  induction ctx with
  | nil =>
    intro cart added
    simp [addLoop, addMatches, addedNames]
  | cons item rest ih =>
    intro cart added
    obtain ⟨s, hs⟩ := h item (List.mem_cons_self item rest)
    have hrest : ∀ i ∈ rest, ∃ t, lookupKey i "name" = some (.str t) :=
      fun i hi => h i (List.mem_cons_of_mem _ hi)
    cases hb : mentioned.contains (pyLower s) with
    | false =>
      have hbm : pyLower s ∉ mentioned := by simpa using hb
      have hm : addMatches mentioned (item :: rest) = addMatches mentioned rest := by
        simp [addMatches, List.filter_cons, hs, hb, hbm]
      have hn : addedNames mentioned (item :: rest) = addedNames mentioned rest := by
        simp [addedNames, hm]
      have hl : addLoop mentioned (item :: rest) cart added =
          addLoop mentioned rest cart added := by
        simp [addLoop, ctxName, getItem, hs, hb, hbm, bind, Except.bind]
      rw [hl, hm, hn]
      exact ih hrest cart added
    | true =>
      have hbm : pyLower s ∈ mentioned := by simpa using hb
      have hm : addMatches mentioned (item :: rest) =
          item :: addMatches mentioned rest := by
        simp [addMatches, List.filter_cons, hs, hb, hbm]
      have hn : addedNames mentioned (item :: rest) =
          s :: addedNames mentioned rest := by
        simp [addedNames, hm, hs]
      have hl : addLoop mentioned (item :: rest) cart added =
          addLoop mentioned rest (cart ++ [cartEntryOfItem item]) (added ++ [s]) := by
        simp [addLoop, ctxName, getItem, hs, hb, hbm, bind, Except.bind]
      rw [hl, ih hrest, hm, hn]
      simp

/-- C4: when the add_to_cart intent executes, exactly the retrieved context
items whose (string) name lowers into the lowered model-reported names are
appended — in context order, each as a fresh entry with quantity 1 at the
item's retrieved price (`cartEntryOfItem`) — and the reply is overwritten
with the deterministic confirmation listing the added names iff at least
one item matched; otherwise cart and reply are unchanged.  Items the model
mentions that are not in the retrieved context are never added (the new
cart is the old cart plus entries drawn from `context_items` only), and
matching is case-insensitive. -/
theorem c4_add_to_cart_exact_matches (context_items : List PyDict)
    (modelItems : List String) (cart : List CartEntry) (reply : JVal)
    (h : ∀ item ∈ context_items, ∃ s, lookupKey item "name" = some (.str s)) :
    (addToCartBranch context_items (modelItems.map pyLower) cart reply =
      .ok (cart ++ (addMatches (modelItems.map pyLower) context_items).map cartEntryOfItem,
           if (addMatches (modelItems.map pyLower) context_items).isEmpty then reply
           else .str ("✅ Added " ++
             pyJoin ", " (addedNames (modelItems.map pyLower) context_items) ++
             " to your cart."))) ∧
    (∀ item ∈ context_items,
      item ∈ addMatches (modelItems.map pyLower) context_items ↔
        ∃ s, lookupKey item "name" = some (.str s) ∧
          ∃ m ∈ modelItems, pyLower m = pyLower s) := by
  constructor
  · unfold addToCartBranch
    rw [addLoop_spec _ _ h]
    simp only [bind, Except.bind, List.nil_append]
    have hie : (addedNames (modelItems.map pyLower) context_items).isEmpty =
        (addMatches (modelItems.map pyLower) context_items).isEmpty := by
      unfold addedNames
      cases addMatches (modelItems.map pyLower) context_items <;> rfl
    rw [hie]
    cases hempty : (addMatches (modelItems.map pyLower) context_items).isEmpty <;>
      simp [hempty]
  · intro item hit
    constructor
    · intro hm
      obtain ⟨s, hs⟩ := h item hit
      have hp := List.of_mem_filter hm
      rw [hs] at hp
      simp only [] at hp
      refine ⟨s, hs, ?_⟩
      have : pyLower s ∈ modelItems.map pyLower := by
        simpa using hp
      obtain ⟨m, hm2, he⟩ := List.mem_map.mp this
      exact ⟨m, hm2, he⟩
    · rintro ⟨s, hs, m, hm2, he⟩
      refine List.mem_filter.mpr ⟨hit, ?_⟩
      rw [hs]
      simp only []
      have : pyLower s ∈ modelItems.map pyLower :=
        List.mem_map.mpr ⟨m, hm2, he⟩
      simpa using this

/-- C4, witnessed: a two-item context, the model reporting `PANEER TIKKA`
(case differs) — exactly the Paneer Tikka context item is appended with
quantity 1 at its retrieved price 150.0, and the reply is the
deterministic confirmation. -/
theorem c4_witness :
    (∀ item ∈ ctxW, ∃ s, lookupKey item "name" = some (.str s)) ∧
    addToCartBranch ctxW (["PANEER TIKKA"].map pyLower) [] (.str "Sure!") =
      .ok ([{ dish_id := .str dishIdW, nameV := .str "Paneer Tikka",
              price := .float 150, qty := .int 1 }],
           .str "✅ Added Paneer Tikka to your cart.") := by
  have h : ∀ item ∈ ctxW, ∃ s, lookupKey item "name" = some (.str s) := by
    intro item hi
    simp only [ctxW, List.mem_cons, List.not_mem_nil, or_false] at hi
    rcases hi with rfl | rfl
    · exact ⟨"Paneer Tikka", rfl⟩
    · exact ⟨"Veg Biryani", rfl⟩
  exact ⟨h, (c4_add_to_cart_exact_matches ctxW ["PANEER TIKKA"] [] (.str "Sure!") h).1⟩

/-! ## C7 -/

/-- Defensive defaulting of the retrieval metadata: looking up any of the
twelve populated keys in a projected dict gives the raw value when the raw
metadata has the key and the type-appropriate zero/empty default when it
does not. -/
theorem metaProject_lookup (raw : PyDict) (key : String) (hk : key ∈ menuMetaKeys) :
    lookupKey (metaProject raw) key =
      some ((lookupKey raw key).getD (menuMetaDefault key)) := by
  simp only [menuMetaKeys, List.mem_cons, List.not_mem_nil, or_false] at hk
  rcases hk with rfl | rfl | rfl | rfl | rfl | rfl | rfl | rfl | rfl | rfl | rfl | rfl <;> rfl

/-- C7: the retrieval contract.  (1) A whitespace-only query returns `[]`
for every index oracle — the index is never consulted.  (2) If the index
honors `n_results=k` (returns at most `k` documents) then retrieval returns
at most `k` items.  (3) Every returned item has all twelve metadata keys
populated.  (4) The projection fills a missing raw field with its
type-appropriate zero/empty default, so downstream formatting never hits
an absent key. -/
theorem c7_retrieve_contract (chroma : ChromaQuery) (rid q : String) (k : Nat) :
    (pyStrip q = "" → retrieve_menu_items chroma rid q k = []) ∧
    ((∀ ds ms, chroma rid q k = some (ds, ms) → ds.length ≤ k) →
      (retrieve_menu_items chroma rid q k).length ≤ k) ∧
    (∀ d ∈ retrieve_menu_items chroma rid q k, ∀ key ∈ menuMetaKeys,
      (lookupKey d.meta key).isSome = true) ∧
    (∀ raw : PyDict, ∀ key ∈ menuMetaKeys,
      lookupKey (metaProject raw) key =
        some ((lookupKey raw key).getD (menuMetaDefault key))) := by
  refine ⟨?_, ?_, ?_, fun raw key hk => metaProject_lookup raw key hk⟩
  · intro hq
    simp [retrieve_menu_items, hq]
  · intro hb
    unfold retrieve_menu_items
    split
    · simp
    · rcases hc : chroma rid q k with _ | ⟨ds, ms⟩ <;> simp only [hc]
      · simp
      · have hk := hb ds ms hc
        simp only [List.length_map, List.length_zip]
        omega
  · intro d hd key hk
    unfold retrieve_menu_items at hd
    split at hd
    · simp at hd
    · rcases hc : chroma rid q k with _ | ⟨ds, ms⟩ <;> simp only [hc] at hd
      · simp at hd
      · simp only [List.mem_map] at hd
        obtain ⟨dm, _, rfl⟩ := hd
        rw [metaProject_lookup _ key hk]
        rfl

/-- A two-document index row for the C7 witness (one metadata entry `None`,
exercising the `meta or {}` projection). -/
def chroma2 : ChromaQuery := fun r _ _ =>
  if r = ridW then some (["d1", "d2"], [some rawMetaW, none]) else none

/-- C7, witnessed: whitespace query returns `[]`, and with a bounded index
the result obeys the `k` bound. -/
theorem c7_witness :
    pyStrip "   " = "" ∧
    retrieve_menu_items chroma2 ridW "   " 5 = [] ∧
    (retrieve_menu_items chroma2 ridW "spicy food" 5).length ≤ 5 := by
  refine ⟨rfl, (c7_retrieve_contract chroma2 ridW "   " 5).1 rfl, ?_⟩
  refine (c7_retrieve_contract chroma2 ridW "spicy food" 5).2.1 ?_
  intro ds ms h
  rw [show chroma2 ridW "spicy food" 5 =
        some (["d1", "d2"], ([some rawMetaW, none] : List (Option PyDict))) from rfl] at h
  have h' := Option.some.inj h
  have hfst := congrArg Prod.fst h'
  simp only [] at hfst
  rw [← hfst]
  decide

/-! ## C8 -/

/-- Newlines in a rendered text. -/
def countNL (s : String) : Nat := s.data.count '\n'

/-- Line count of a text: newline-separated segments. -/
def lineCount (s : String) : Nat := countNL s + 1

theorem countNL_append (a b : String) : countNL (a ++ b) = countNL a + countNL b := by
  simp [countNL, String.data_append, List.count_append]

/-- A document with all seven formatter keys present yields one formatted
entry, and the entry contains no newline when none of the field values
renders with one. -/
theorem contextLine_ok (d : DocEntry)
    (h : ∀ key ∈ contextFieldKeys, (lookupKey d.meta key).isSome = true) :
    ∃ l, contextLine d = .ok l ∧
      ((∀ key ∈ contextFieldKeys, ∀ v, lookupKey d.meta key = some v →
          countNL (pyStr v) = 0) → countNL l = 0) := by
  obtain ⟨v1, hv1⟩ := Option.isSome_iff_exists.mp (h "dish_name" (by simp [contextFieldKeys]))
  obtain ⟨v2, hv2⟩ := Option.isSome_iff_exists.mp (h "category" (by simp [contextFieldKeys]))
  obtain ⟨v3, hv3⟩ := Option.isSome_iff_exists.mp (h "price" (by simp [contextFieldKeys]))
  obtain ⟨v4, hv4⟩ := Option.isSome_iff_exists.mp (h "calories" (by simp [contextFieldKeys]))
  obtain ⟨v5, hv5⟩ := Option.isSome_iff_exists.mp (h "tags" (by simp [contextFieldKeys]))
  obtain ⟨v6, hv6⟩ := Option.isSome_iff_exists.mp (h "ingredients" (by simp [contextFieldKeys]))
  obtain ⟨v7, hv7⟩ := Option.isSome_iff_exists.mp (h "chef_special" (by simp [contextFieldKeys]))
  refine ⟨"Name: " ++ pyStr v1 ++ " | Category: " ++ pyStr v2 ++
          " | Price: ₹" ++ pyStr v3 ++ " | Calories: " ++ pyStr v4 ++
          " kcal | Tags: " ++ pyStr v5 ++ " | Ingredients: " ++ pyStr v6 ++
          " | Chef Special: " ++ pyStr v7, ?_, ?_⟩
  · simp [contextLine, getItem, hv1, hv2, hv3, hv4, hv5, hv6, hv7, bind, Except.bind]
  · intro hnl
    have c1 := hnl "dish_name" (by simp [contextFieldKeys]) v1 hv1
    have c2 := hnl "category" (by simp [contextFieldKeys]) v2 hv2
    have c3 := hnl "price" (by simp [contextFieldKeys]) v3 hv3
    have c4 := hnl "calories" (by simp [contextFieldKeys]) v4 hv4
    have c5 := hnl "tags" (by simp [contextFieldKeys]) v5 hv5
    have c6 := hnl "ingredients" (by simp [contextFieldKeys]) v6 hv6
    have c7 := hnl "chef_special" (by simp [contextFieldKeys]) v7 hv7
    simp only [countNL_append, c1, c2, c3, c4, c5, c6, c7]
    decide

/-- C8 amended: the formatter is a pure function that emits exactly one
fixed-field-order entry per item: `contextLines` yields as many entries as
items, the output is their newline-join for non-empty input, and the
empty list yields the fixed no-match sentence; the output line count
equals the item count provided no rendered metadata value contains a
newline (an embedded newline splits an entry across lines). -/
theorem c8_amended_format_contract (docs : List DocEntry)
    (h : ∀ d ∈ docs, ∀ key ∈ contextFieldKeys, (lookupKey d.meta key).isSome = true) :
    ∃ ls, contextLines docs = .ok ls ∧ ls.length = docs.length ∧
      build_menu_context docs = .ok (if docs.isEmpty then noMatchMsg else pyJoin "\n" ls) ∧
      ((∀ d ∈ docs, ∀ key ∈ contextFieldKeys, ∀ v,
          lookupKey d.meta key = some v → countNL (pyStr v) = 0) →
        docs ≠ [] → lineCount (pyJoin "\n" ls) = docs.length) := by
  induction docs with
  | nil =>
    exact ⟨[], rfl, rfl, rfl, fun _ hne => absurd rfl hne⟩
  | cons d rest ih =>
    have hd := h d (List.mem_cons_self d rest)
    have hr : ∀ d' ∈ rest, ∀ key ∈ contextFieldKeys, (lookupKey d'.meta key).isSome = true :=
      fun d' hd' => h d' (List.mem_cons_of_mem _ hd')
    obtain ⟨l, hl, hlc⟩ := contextLine_ok d hd
    obtain ⟨ls, hls, hlen, _, hcount⟩ := ih hr
    refine ⟨l :: ls, ?_, by simp [hlen], ?_, ?_⟩
    · simp [contextLines, hl, hls, bind, Except.bind]
    · simp [build_menu_context, contextLines, hl, hls, bind, Except.bind]
    · intro hnl hne
      have hc1 : countNL l = 0 :=
        hlc (fun key hk v hv => hnl d (List.mem_cons_self d rest) key hk v hv)
      rcases ls with _ | ⟨l2, ls'⟩
      · have hr0 : rest.length = 0 := by simpa using hlen.symm
        simp [lineCount, pyJoin, hc1, hr0]
      · have hne2 : rest ≠ [] := by
          intro hrnil
          rw [hrnil] at hlen
          simp at hlen
        have hcnt := hcount (fun d' hd' => hnl d' (List.mem_cons_of_mem _ hd')) hne2
        have hj : pyJoin "\n" (l :: l2 :: ls') = l ++ "\n" ++ pyJoin "\n" (l2 :: ls') := rfl
        rw [hj]
        unfold lineCount at hcnt ⊢
        rw [countNL_append, countNL_append, hc1]
        have hnl1 : countNL "\n" = 1 := rfl
        rw [hnl1]
        simp only [List.length_cons] at *
        omega

/-- C8 counterexample: a single item whose dish name carries an embedded
newline formats to a two-line output — the claim's "output line count
equals the input item count" fails on this item list. -/
theorem c8_counterexample_newline_in_field :
    build_menu_context [docNl] =
      .ok "Name: Pane\ner Tikka | Category:  | Price: ₹0.0 | Calories: 0 kcal | Tags:  | Ingredients:  | Chef Special: " ∧
    lineCount "Name: Pane\ner Tikka | Category:  | Price: ₹0.0 | Calories: 0 kcal | Tags:  | Ingredients:  | Chef Special: " = 2 ∧
    [docNl].length = 1 :=
  ⟨rfl, rfl, rfl⟩

/-- The C8 witness document list: one fully-populated projected metadata. -/
def docsW8 : List DocEntry := [{ text := "t", meta := metaProject rawMetaW }]

/-- C8 amended, witnessed on a concrete fully-populated document. -/
theorem c8_witness :
    ∃ ls, contextLines docsW8 = .ok ls ∧ ls.length = docsW8.length ∧
      build_menu_context docsW8 = .ok (if docsW8.isEmpty then noMatchMsg else pyJoin "\n" ls) ∧
      ((∀ d ∈ docsW8, ∀ key ∈ contextFieldKeys, ∀ v,
          lookupKey d.meta key = some v → countNL (pyStr v) = 0) →
        docsW8 ≠ [] → lineCount (pyJoin "\n" ls) = docsW8.length) :=
  c8_amended_format_contract docsW8 (by decide)

/-! ## C10 -/

/-- C10: every turn the endpoint completes successfully appends exactly two
entries to the stored session history — first the user's utterance with
role `user`, then the assistant's final reply with role `assistant`
annotated with the turn's intent and context items — whatever intent
branch executed; the stored history is the full prior history plus those
two entries (never truncated in storage), while the response view is the
`[-5:]` truncation. -/
theorem c10_two_history_entries_per_turn (env : Env) (db : DB) (req : ChatRequest)
    (body : ChatBody) (db' : DB)
    (h : post env db req = (.ok body, db')) :
    ∃ rid q, req.restaurant_id = some rid ∧ req.user_query = some q ∧
      ∃ stored : Session,
        findSession db'.sessions body.session_id = some stored ∧
        stored.history = (sessionStage env db req.session_id rid).1.history ++
          [{ role := "user", content := .str q, intent := none, context_items := none },
           { role := "assistant", content := body.reply, intent := some body.intent,
             context_items := some body.context_items }] ∧
        stored.cart = body.cart ∧
        body.history = pyLastN 5 stored.history := by
  obtain ⟨orid, ouq, osid⟩ := req
  unfold post at h
  rcases orid with _ | rid
  · simp at h
  rcases ouq with _ | q
  · simp at h
  simp only [] at h
  split at h
  · simp at h
  refine ⟨rid, q, rfl, rfl, ?_⟩
  unfold postBody at h
  split at h
  · simp [errorResp] at h
  rename_i context_items hCtx
  split at h
  · simp [errorResp] at h
  rename_i menu_context hMenu
  split at h
  · simp at h
  rename_i rname hRest
  split at h
  · simp [errorResp] at h
  rename_i intentV hIntent
  split at h
  · simp [errorResp] at h
  rename_i reply0 hReply0
  split at h
  · simp [errorResp] at h
  rename_i itemsV hItems
  split at h
  · simp [errorResp] at h
  rename_i mentioned hMent
  split at h
  next e db2 heq => simp [errorResp] at h
  next cart2 reply2 db2 heq =>
    simp only [Prod.mk.injEq, Resp.ok.injEq] at h
    obtain ⟨hbody, hdb⟩ := h
    subst hdb
    have hsess := congrArg (fun p => p.2.sessions) heq
    simp only [] at hsess
    rw [executeIntent_sessions] at hsess
    obtain ⟨t, ht, hid⟩ := sessionStage_mem env db osid rid
    refine ⟨{ (sessionStage env db osid rid).1 with
              history := (sessionStage env db osid rid).1.history ++
                [{ role := "user", content := .str q, intent := none,
                   context_items := none },
                 { role := "assistant", content := reply2, intent := some intentV,
                   context_items := some context_items }],
              cart := cart2 }, ?_, ?_, ?_, ?_⟩
    · rw [← hbody]
      exact findSession_saveSession db2 _ ⟨t, hsess ▸ ht, hid⟩
    · rw [← hbody]
    · rw [← hbody]
    · rw [← hbody]

/-- C10, witnessed on a concrete successful chat turn. -/
theorem c10_witness :
    ∃ rid q, reqChat.restaurant_id = some rid ∧ reqChat.user_query = some q ∧
      ∃ stored : Session,
        findSession
          ({ sessions := [{ id := sidFreshW, restaurant_id := ridW,
                            history :=
                              [{ role := "user", content := .str "hi there",
                                 intent := none, context_items := none },
                               { role := "assistant", content := .str chatText,
                                 intent := some (.str "chat"),
                                 context_items := some [] }],
                            cart := [] }],
             orders := [] } : DB).sessions sidFreshW = some stored ∧
        stored.history = (sessionStage envChat dbEmpty reqChat.session_id rid).1.history ++
          [{ role := "user", content := .str q, intent := none, context_items := none },
           { role := "assistant", content := .str chatText,
             intent := some (.str "chat"), context_items := some [] }] ∧
        stored.cart = [] ∧
        pyLastN 5 stored.history =
          [{ role := "user", content := .str "hi there",
             intent := none, context_items := none },
           { role := "assistant", content := .str chatText,
             intent := some (.str "chat"), context_items := some [] }] := by
  obtain ⟨rid, q, h1, h2, stored, h3, h4, h5, h6⟩ :=
    c10_two_history_entries_per_turn envChat dbEmpty reqChat
      { session_id := sidFreshW, intent := .str "chat", reply := .str chatText,
        context_items := [], cart := [],
        history :=
          [{ role := "user", content := .str "hi there",
             intent := none, context_items := none },
           { role := "assistant", content := .str chatText,
             intent := some (.str "chat"), context_items := some [] }] }
      { sessions := [{ id := sidFreshW, restaurant_id := ridW,
                       history :=
                         [{ role := "user", content := .str "hi there",
                            intent := none, context_items := none },
                          { role := "assistant", content := .str chatText,
                            intent := some (.str "chat"),
                            context_items := some [] }],
                       cart := [] }],
        orders := [] } rfl
  exact ⟨rid, q, h1, h2, stored, h3, h4, h5, h6.symm⟩

end Ardine
